import Mathlib

/-!
# Wings: docker network reconciliation and HTTP middleware

A shallow embedding of `environment/docker.go` (the runtime client accessor
`Docker`, the reconciler `ConfigureDocker` and `createDockerNetwork`) and of
the parts of `router/middleware/middleware.go` that decide the access-control
origin header and the status of an aborted request.

Global Go state (the `sync.Once`, the `_client` variable, the shared
configuration, the log sink and the calls made to the container runtime) is
threaded explicitly as a `State`; what the outside world answers is an `Env`.
-/

namespace environment

/-! ## Go values used by the package -/

/-- A Go `map[string]string`, kept as an association list with unique keys. -/
abbrev GoMap := List (String × String)

/-- The Go statement `m[k] = v`: overwrite the entry under `k`, or add one. -/
def GoMap.set : GoMap → String → String → GoMap
  | [], k, v => [(k, v)]
  | (k0, v0) :: rest, k, v =>
    if k0 = k then (k, v) :: rest else (k0, v0) :: GoMap.set rest k v

/-- The function `strconv.FormatBool`. -/
def FormatBool (b : Bool) : String :=
  if b then "true" else "false"

/-- A Go `error` value coming from the docker client: its message and whether
    it belongs to the not-found class tested by `client.IsErrNotFound`. -/
structure GoErr where
  msg : String
  notFound : Bool
deriving DecidableEq, Repr

/-- The test `client.IsErrNotFound(err)`. -/
def IsErrNotFound (e : GoErr) : Bool :=
  e.notFound

/-- The function `errors.Wrap(err, message)` of emperror: `nil` stays `nil`, any
    other error gets the message put in front of its own. -/
def errorsWrap (err : Option GoErr) (message : String) : Option GoErr :=
  match err with
  | none => none
  | some e => some { e with msg := message ++ ": " ++ e.msg }

/-! ## Configuration -/

/-- Modelled from the spec: the declaration of the subnet and gateway pair of
    `config.DockerNetworkConfiguration.Interfaces` is not among the sources;
    the fields are those `createDockerNetwork` reads. -/
structure InterfaceAddress where
  Subnet : String
  Gateway : String
deriving DecidableEq, Repr

/-- Modelled from the spec: the dual-stack pair `Interfaces.V4`,
    `Interfaces.V6` of the network configuration, whose declaration is not
    among the sources. -/
structure DockerNetworkInterfaces where
  V4 : InterfaceAddress
  V6 : InterfaceAddress
deriving DecidableEq, Repr

/-- Modelled from the spec: `config.DockerNetworkConfiguration`, whose
    declaration is not among the sources; the fields are exactly those read or
    written by `ConfigureDocker` and `createDockerNetwork`. -/
structure DockerNetworkConfiguration where
  Interface : String
  Name : String
  ISPN : Bool
  Driver : String
  IsInternal : Bool
  EnableICC : Bool
  Interfaces : DockerNetworkInterfaces
deriving DecidableEq, Repr

/-- Modelled from the spec: the `Docker` section of `config.Configuration`. -/
structure DockerConfiguration where
  Network : DockerNetworkConfiguration
deriving DecidableEq, Repr

/-- Modelled from the spec: `config.Configuration`, restricted to the section
    this package uses. -/
structure Configuration where
  Docker : DockerConfiguration
deriving DecidableEq, Repr

/-! ## The container runtime API -/

/-- The part of `types.NetworkResource` the reconciler looks at. -/
structure NetworkResource where
  Name : String
  Driver : String
deriving DecidableEq, Repr

/-- The Go zero value `types.NetworkResource{}`. -/
def NetworkResource.zero : NetworkResource :=
  { Name := "", Driver := "" }

/-- One entry of `network.IPAM.Config`. -/
structure IPAMConfig where
  Subnet : String
  Gateway : String
deriving DecidableEq, Repr

/-- The request body `types.NetworkCreate` as `createDockerNetwork` fills it. -/
structure NetworkCreate where
  Driver : String
  EnableIPv6 : Bool
  Internal : Bool
  IPAM : List IPAMConfig
  Options : GoMap
deriving DecidableEq, Repr

/-- What the runtime answers to an inspect request. -/
inductive InspectResponse where
  | found (resource : NetworkResource)
  | failed (err : GoErr)
deriving DecidableEq, Repr

/-- A client handle (`*client.Client`), identified by a number. -/
abbrev Handle := Nat

/-- The outside world: what `client.NewClientWithOpts` would return if it were
    invoked (a Go pair of pointer and error), and what the runtime answers to
    an inspect and to a create request. -/
structure Env where
  newClient : Option Handle × Option GoErr
  inspect : String → InspectResponse
  create : String → NetworkCreate → Option GoErr

/-- The client method `cli.NetworkInspect`, as the Go pair it returns: the
    docker client hands back the zero `types.NetworkResource` together with
    every error. -/
def NetworkInspect (env : Env) (name : String) : NetworkResource × Option GoErr :=
  match env.inspect name with
  | .found r => (r, none)
  | .failed e => (NetworkResource.zero, some e)

/-- The client method `cli.NetworkCreate`, reduced to the error it returns. -/
def NetworkCreateCall (env : Env) (name : String) (req : NetworkCreate) : Option GoErr :=
  env.create name req

/-! ## Logging and the call trace -/

/-- Severity of an `apex/log` entry. -/
inductive Level where
  | info
  | error
deriving DecidableEq, Repr

/-- A log entry: severity and message. -/
structure LogEntry where
  level : Level
  message : String
deriving DecidableEq, Repr

/-- The function `strings.Contains`. -/
def stringsContains (s substr : String) : Bool :=
  s.data.tails.any (fun t => substr.data.isPrefixOf t)

/-- Whether the message of a log entry contains both the network name and
    the driver. -/
def LogEntry.containsBoth (entry : LogEntry) (name driver : String) : Bool :=
  stringsContains entry.message name && stringsContains entry.message driver

/-- The informational entry written at docker.go 44. -/
def creatingEntry : LogEntry :=
  { level := Level.info,
    message := "creating missing pterodactyl0 interface, this could take a few seconds..." }

/-- A request made to the container runtime. -/
inductive ApiCall where
  | networkInspect (name : String)
  | networkCreate (name : String) (req : NetworkCreate)
deriving DecidableEq, Repr

/-- Whether a recorded request is a create request. -/
def ApiCall.isCreate : ApiCall → Bool
  | .networkInspect _ => false
  | .networkCreate _ _ => true

/-- The mutable process state: the one-shot gate `_conce`, the package
    variable `_client`, the shared configuration, the log sink and the
    requests sent to the runtime so far. -/
structure State where
  onceDone : Bool
  client : Option Handle
  config : Configuration
  logs : List LogEntry
  calls : List ApiCall

/-- How a Go function call ends: it returns its `error` result, or the
    goroutine panics. -/
inductive Outcome where
  | returned (err : Option GoErr)
  | panicked
deriving DecidableEq, Repr

/-! ## docker.go -/

/-- The accessor `Docker` (docker.go 24-30). The local `err` starts as `nil`
    and is assigned only inside the function passed to `_conce.Do`, which runs
    on the first call alone. -/
def Docker (env : Env) (st : State) : (Option Handle × Option GoErr) × State :=
  if st.onceDone then
    ((st.client, errorsWrap none "environment/docker: could not create client"), st)
  else
    let st1 : State := { st with onceDone := true, client := env.newClient.1 }
    ((st1.client, errorsWrap env.newClient.2 "environment/docker: could not create client"), st1)

/-- The option map built at docker.go 75-94 from the network configuration. -/
def networkOptions (nw : DockerNetworkConfiguration) (cfg : Configuration) : GoMap :=
  let options : GoMap := []
  let options :=
    if nw.Driver = "bridge" then
      ((((((options.set "encryption" "false").set
        "com.docker.network.bridge.default_bridge" "false").set
        "com.docker.network.bridge.enable_icc" (FormatBool nw.EnableICC)).set
        "com.docker.network.bridge.enable_ip_masquerade" "true").set
        "com.docker.network.bridge.host_binding_ipv4" "0.0.0.0").set
        "com.docker.network.bridge.name" "pterodactyl0").set
        "com.docker.network.driver.mtu" "1500"
    else options
  let options :=
    if nw.Driver = "overlay" then
      (options.set "encryption" "true").set "com.docker.network.driver.mtu" "9216"
    else options
  let options :=
    if nw.Driver = "macvlan" then
      options.set "parent" cfg.Docker.Network.Interface
    else options
  options

/-- The request `createDockerNetwork` sends (docker.go 96-110). -/
def createRequest (nw : DockerNetworkConfiguration) (cfg : Configuration) : NetworkCreate :=
  { Driver := nw.Driver
    EnableIPv6 := true
    Internal := nw.IsInternal
    IPAM := [{ Subnet := nw.Interfaces.V4.Subnet, Gateway := nw.Interfaces.V4.Gateway },
             { Subnet := nw.Interfaces.V6.Subnet, Gateway := nw.Interfaces.V6.Gateway }]
    Options := networkOptions nw cfg }

/-- The closure passed to `config.Update` at docker.go 116-118. -/
def setInterfaceToGateway (c : Configuration) : Configuration :=
  { c with Docker := { c.Docker with Network :=
      { c.Docker.Network with Interface := c.Docker.Network.Interfaces.V4.Gateway } } }

/-- The message of the error record, `fmt.Sprintf("Error creating network %s
    driver:%s", nw.Name, nw.Driver)`. -/
def createErrorMessage (name driver : String) : String :=
  "Error creating network " ++ name ++ " driver:" ++ driver

/-- The function `createDockerNetwork` (docker.go 72-121). -/
def createDockerNetwork (env : Env) (st : State) : Option GoErr × State :=
  let nw := st.config.Docker.Network
  let req := createRequest nw st.config
  let st1 : State := { st with calls := st.calls ++ [ApiCall.networkCreate nw.Name req] }
  match NetworkCreateCall env nw.Name req with
  | some err =>
    (some err, { st1 with logs := st1.logs ++
      [{ level := Level.error, message := createErrorMessage nw.Name nw.Driver }] })
  | none =>
    if nw.Driver ≠ "host" ∧ nw.Driver ≠ "overlay" ∧ nw.Driver ≠ "weavemesh"
        ∧ nw.Driver ≠ "macvlan" then
      (none, { st1 with config := setInterfaceToGateway st1.config })
    else
      (none, st1)

/-- The closure passed to `config.Update` at docker.go 53-67. -/
def applyObservedDriver (resource : NetworkResource) (c : Configuration) : Configuration :=
  let n : DockerNetworkConfiguration := { c.Docker.Network with Driver := resource.Driver }
  let n : DockerNetworkConfiguration :=
    if n.Driver = "host" then
      { n with Interface := "127.0.0.1", ISPN := false }
    else if n.Driver = "overlay" ∨ n.Driver = "weavemesh" then
      { n with Interface := "", ISPN := true }
    else
      { n with ISPN := false }
  { c with Docker := { c.Docker with Network := n } }

/-- The function `ConfigureDocker` (docker.go 33-69). A `nil` client with a
    `nil` error makes the method call on it dereference a nil pointer. -/
def ConfigureDocker (env : Env) (st : State) : Outcome × State :=
  match Docker env st with
  | ((_, some err), st1) => (Outcome.returned (some err), st1)
  | ((none, none), st1) => (Outcome.panicked, st1)
  | ((some _, none), st1) =>
    let nw := st1.config.Docker.Network
    let st2 : State := { st1 with calls := st1.calls ++ [ApiCall.networkInspect nw.Name] }
    match NetworkInspect env nw.Name with
    | (resource, some err) =>
      if IsErrNotFound err then
        let st3 : State := { st2 with logs := st2.logs ++
          [{ level := Level.info,
             message := "creating missing pterodactyl0 interface, this could take a few seconds..." }] }
        match createDockerNetwork env st3 with
        | (some err2, st4) => (Outcome.returned (some err2), st4)
        | (none, st4) =>
          (Outcome.returned none, { st4 with config := applyObservedDriver resource st4.config })
      else
        (Outcome.returned (some err), st2)
    | (resource, none) =>
      (Outcome.returned none, { st2 with config := applyObservedDriver resource st2.config })

/-- The results of `n` successive calls of `Docker`, in order, and the state
    after them. -/
def dockerCalls (env : Env) : Nat → State → List (Option Handle × Option GoErr) × State
  | 0, st => ([], st)
  | n + 1, st =>
    let r := Docker env st
    let rest := dockerCalls env n r.2
    (r.1 :: rest.1, rest.2)

/-- The reference option mapping of the driver option builder, following the
    wording of the specification. -/
def referenceOptions (driver : String) (icc : Bool) (parent : String) : GoMap :=
  if driver = "bridge" then
    [("encryption", "false"),
     ("com.docker.network.bridge.default_bridge", "false"),
     ("com.docker.network.bridge.enable_icc", if icc then "true" else "false"),
     ("com.docker.network.bridge.enable_ip_masquerade", "true"),
     ("com.docker.network.bridge.host_binding_ipv4", "0.0.0.0"),
     ("com.docker.network.bridge.name", "pterodactyl0"),
     ("com.docker.network.driver.mtu", "1500")]
  else if driver = "overlay" then
    [("encryption", "true"), ("com.docker.network.driver.mtu", "9216")]
  else if driver = "macvlan" then
    [("parent", parent)]
  else []

/-! ## Sample inputs -/

/-- A configuration with the given driver and previous interface value. -/
def sampleConfig (driver iface : String) : Configuration :=
  { Docker := { Network :=
    { Interface := iface
      Name := "pterodactyl_nw"
      ISPN := false
      Driver := driver
      IsInternal := false
      EnableICC := true
      Interfaces :=
        { V4 := { Subnet := "172.20.0.0/16", Gateway := "172.20.0.1" }
          V6 := { Subnet := "fdba:17c8:6c94::/64", Gateway := "fdba:17c8:6c94::1011" } } } } }

/-- The sample configuration with another network name. -/
def sampleConfigNamed (name driver iface : String) : Configuration :=
  { Docker := { Network := { (sampleConfig driver iface).Docker.Network with Name := name } } }

/-- A fresh process: gate not yet passed, no client, empty log and trace. -/
def freshState (cfg : Configuration) : State :=
  { onceDone := false, client := none, config := cfg, logs := [], calls := [] }

/-- A world in which the client can be built, the network does not exist and
    the create request is answered with `createAnswer`. -/
def absentEnv (createAnswer : Option GoErr) : Env :=
  { newClient := (some 1, none)
    inspect := fun _ => InspectResponse.failed { msg := "network not found", notFound := true }
    create := fun _ _ => createAnswer }

/-- A world in which the client can be built and the inspect request is
    answered with `answer`. -/
def inspectEnv (answer : InspectResponse) : Env :=
  { newClient := (some 1, none)
    inspect := fun _ => answer
    create := fun _ _ => none }

end environment

namespace middleware

/-! ## Go values used by the package -/

/-- A Go `error` as this package looks at it: the two sentinel errors of
    package `context`, a plain error with a message, or an error wrapping
    another one with a message in front. -/
inductive GoError where
  | deadlineExceeded
  | canceled
  | plain (msg : String)
  | wrap (msg : String) (inner : GoError)
deriving DecidableEq, Repr

/-- The method `Error()` of an error value. -/
def GoError.Error : GoError → String
  | .deadlineExceeded => "context deadline exceeded"
  | .canceled => "context canceled"
  | .plain msg => msg
  | .wrap msg inner => msg ++ ": " ++ inner.Error

/-- Whether the error is `context.DeadlineExceeded` or wraps it, at any
    depth. -/
def GoError.wrapsDeadlineExceeded : GoError → Bool
  | .deadlineExceeded => true
  | .canceled => false
  | .plain _ => false
  | .wrap _ inner => inner.wrapsDeadlineExceeded

/-- The test `errors.Is(err, context.DeadlineExceeded)`; a nil error is no
    error at all. -/
def isDeadlineExceeded (err : Option GoError) : Bool :=
  match err with
  | none => false
  | some e => e.wrapsDeadlineExceeded

/-- The function `strings.Contains`. -/
def stringsContains (s substr : String) : Bool :=
  s.data.tails.any (fun t => substr.data.isPrefixOf t)

/-- An `http.Header` with one value per key, as an association list. -/
abbrev HttpHeader := List (String × String)

/-- The method `Header.Get`: the value under the key, or the empty string. -/
def headerGet : HttpHeader → String → String
  | [], _ => ""
  | (k0, v0) :: rest, k => if k0 = k then v0 else headerGet rest k

/-- The method `Header.Set`: replace the value under the key, or add it. -/
def headerSet : HttpHeader → String → String → HttpHeader
  | [], k, v => [(k, v)]
  | (k0, v0) :: rest, k, v =>
    if k0 = k then (k, v) :: rest else (k0, v0) :: headerSet rest k v

/-- The method `Header.Del`: drop the key. -/
def headerDel (h : HttpHeader) (k : String) : HttpHeader :=
  h.filter (fun kv => kv.1 ≠ k)

/-! ## The gin context -/

/-- The incoming request. -/
structure Request where
  Method : String
  URL : String
  Header : HttpHeader
deriving DecidableEq, Repr

/-- The gin response writer: the status it holds, whether the headers went
    out, the response headers and the JSON objects written as body. -/
structure ResponseWriter where
  status : Int
  written : Bool
  header : HttpHeader
  body : List (List (String × String))
deriving DecidableEq, Repr

/-- The gin context: request, writer, whether the handler chain was aborted,
    the id of the server stored under the key "server" (when there is one) and
    whether `c.Next()` handed over to the remaining handlers. -/
structure Context where
  Request : Request
  Writer : ResponseWriter
  aborted : Bool
  server : Option String
  nextCalled : Bool
deriving DecidableEq, Repr

/-- The gin method `c.Header(key, value)`: an empty value removes the header. -/
def Context.Header (c : Context) (key value : String) : Context :=
  if value = "" then
    { c with Writer := { c.Writer with header := headerDel c.Writer.header key } }
  else
    { c with Writer := { c.Writer with header := headerSet c.Writer.header key value } }

/-- The gin method `c.GetHeader(key)`. -/
def Context.GetHeader (c : Context) (key : String) : String :=
  headerGet c.Request.Header key

/-- The gin writer method `WriteHeader(code)`: a positive code replaces the
    held status unless the headers already went out. -/
def ResponseWriter.WriteHeader (w : ResponseWriter) (code : Int) : ResponseWriter :=
  if code > 0 ∧ w.status ≠ code then
    if w.written then w else { w with status := code }
  else w

/-- The gin writer method `WriteHeaderNow()`. -/
def ResponseWriter.WriteHeaderNow (w : ResponseWriter) : ResponseWriter :=
  { w with written := true }

/-- The gin helper `bodyAllowedForStatus`. -/
def bodyAllowedForStatus (status : Int) : Bool :=
  if 100 ≤ status ∧ status ≤ 199 then false
  else if status = 204 then false
  else if status = 304 then false
  else true

/-- The gin method `c.AbortWithStatus(code)`. -/
def Context.AbortWithStatus (c : Context) (code : Int) : Context :=
  { c with Writer := (c.Writer.WriteHeader code).WriteHeaderNow, aborted := true }

/-- The gin method `c.AbortWithStatusJSON(code, obj)`: abort, set the status,
    then render the object as JSON (content type first, body when the status
    allows one). -/
def Context.AbortWithStatusJSON (c : Context) (code : Int) (obj : List (String × String)) :
    Context :=
  let w := c.Writer.WriteHeader code
  let w : ResponseWriter :=
    if headerGet w.header "Content-Type" = "" then
      { w with header := headerSet w.header "Content-Type" "application/json; charset=utf-8" }
    else w
  let w : ResponseWriter :=
    if bodyAllowedForStatus code then
      { w.WriteHeaderNow with body := w.body ++ [obj] }
    else w.WriteHeaderNow
  { c with Writer := w, aborted := true }

/-- The gin method `c.Next()`: the remaining handlers run; they are not part
    of this package, so only the hand-over is recorded. -/
def Context.Next (c : Context) : Context :=
  { c with nextCalled := true }

/-! ## middleware.go -/

/-- The type `RequestError` (middleware.go 21-25); `err` is `none` for a nil
    error. -/
structure RequestError where
  err : Option GoError
  status : Int
  msg : String
deriving DecidableEq, Repr

/-- The constructor `NewError` (middleware.go 28-35); attaching a stack trace
    does not change the error chain or its message. -/
def NewError (err : Option GoError) : RequestError :=
  { err := err, status := 0, msg := "" }

/-- The method `SetMessage` (middleware.go 39-41). -/
def RequestError.SetMessage (re : RequestError) (m : String) : RequestError :=
  { re with msg := m }

/-- The method `SetStatus` (middleware.go 45-47). -/
def RequestError.SetStatus (re : RequestError) (s : Int) : RequestError :=
  { re with status := s }

/-- The method `Cause` (middleware.go 99-101). -/
def RequestError.Cause (re : RequestError) : Option GoError :=
  re.err

/-- Severity of a log entry written by `Abort`. -/
inductive Level where
  | error
  | debug
deriving DecidableEq, Repr

/-- A log entry written by `Abort`, with the fields attached to it. -/
structure LogEvent where
  level : Level
  message : String
  request_id : String
  url : String
  server_id : Option String
  status : Int
  error : Option GoError
deriving DecidableEq, Repr

/-- The branch at middleware.go 67-79, which rewrites status and message of
    the error while the writer still holds 200. The result is `none` when
    `re.Cause().Error()` is called on a nil error, which panics. -/
def adjustForContextErrors (re : RequestError) (c : Context) : Option RequestError :=
  if c.Writer.status = 200 then
    if isDeadlineExceeded re.err then
      some ((re.SetStatus 504).SetMessage
        "The server could not process this request in time, please try again.")
    else
      match re.Cause with
      | none => none
      | some e =>
        if stringsContains e.Error "context canceled" then
          some ((re.SetStatus 400).SetMessage "Request aborted by client.")
        else some re
  else some re

/-- The method `Abort` (middleware.go 52-96): the error as it is left, the
    context after the response was sent, and the log entry written; `none`
    when the call panics. -/
def RequestError.Abort (re : RequestError) (c : Context) (status : Int) :
    Option (RequestError × Context × LogEvent) :=
  let reqId := headerGet c.Writer.header "X-Request-Id"
  match adjustForContextErrors re c with
  | none => none
  | some re1 =>
    let event : LogEvent :=
      if status ≥ 500 ∨ c.Writer.status ≠ 200 then
        { level := Level.error, message := "error while handling HTTP request",
          request_id := reqId, url := c.Request.URL, server_id := c.server,
          status := status, error := re1.err }
      else
        { level := Level.debug, message := "error handling HTTP request (not a server error)",
          request_id := reqId, url := c.Request.URL, server_id := c.server,
          status := status, error := re1.err }
    let re2 : RequestError :=
      if re1.msg = "" then
        { re1 with msg := "An unexpected error was encountered while processing this request" }
      else re1
    some (re2, c.AbortWithStatusJSON status [("error", re2.msg), ("request_id", reqId)], event)

/-- The loop at middleware.go 216-222: the first allowed origin that is the
    wildcard or the request origin is written to the header. -/
def allowOriginLoop (origin : String) : List String → Context → Context
  | [], c => c
  | o :: rest, c =>
    if o ≠ "*" ∧ o ≠ origin then allowOriginLoop origin rest c
    else c.Header "Access-Control-Allow-Origin" o

/-- The handler returned by `SetAccessControlHeaders` (middleware.go 196-230);
    `origins` and `location` are `config.Get().AllowedOrigins` and
    `config.Get().PanelLocation`, read when the handler is built. -/
def SetAccessControlHeaders (origins : List String) (location : String) (c : Context) :
    Context :=
  let c := c.Header "Access-Control-Allow-Credentials" "true"
  let c := c.Header "Access-Control-Allow-Methods" "GET, POST, PATCH, PUT, DELETE, OPTIONS"
  let c := c.Header "Access-Control-Max-Age" "7200"
  let c := c.Header "Access-Control-Allow-Origin" location
  let c := c.Header "Access-Control-Allow-Headers"
    "Accept, Accept-Encoding, Authorization, Cache-Control, Content-Type, Content-Length, Origin, X-Real-IP, X-CSRF-Token"
  let origin := c.GetHeader "Origin"
  let c := if origin ≠ location then allowOriginLoop origin origins c else c
  if c.Request.Method = "OPTIONS" then c.AbortWithStatus 204
  else c.Next

/-- The final value of the `Access-Control-Allow-Origin` response header. -/
def allowOriginOf (c : Context) : String :=
  headerGet c.Writer.header "Access-Control-Allow-Origin"

/-! ## Sample inputs -/

/-- A request context with the given method and `Origin` header, nothing
    written yet. -/
def sampleContext (method origin : String) : Context :=
  { Request := { Method := method, URL := "/api/servers", Header := [("Origin", origin)] }
    Writer := { status := 200, written := false, header := [], body := [] }
    aborted := false
    server := none
    nextCalled := false }

end middleware

/-! # Theorems about docker.go -/

namespace environment

/-- The accessor does not touch the shared configuration. -/
theorem Docker_config (env : Env) (st : State) : (Docker env st).2.config = st.config := by
  unfold Docker; split <;> rfl

/-- The accessor writes no log entry. -/
theorem Docker_logs (env : Env) (st : State) : (Docker env st).2.logs = st.logs := by
  unfold Docker; split <;> rfl

/-- The accessor sends nothing to the runtime. -/
theorem Docker_calls (env : Env) (st : State) : (Docker env st).2.calls = st.calls := by
  unfold Docker; split <;> rfl

/-- The option map built by the code is the reference mapping of the driver
    option builder. -/
theorem networkOptions_eq_reference (nw : DockerNetworkConfiguration) (cfg : Configuration) :
    networkOptions nw cfg
      = referenceOptions nw.Driver nw.EnableICC cfg.Docker.Network.Interface := by
  unfold networkOptions referenceOptions
  by_cases h1 : nw.Driver = "bridge"
  · cases hb : nw.EnableICC <;> simp [h1, GoMap.set, FormatBool]
  · by_cases h2 : nw.Driver = "overlay"
    · simp [h1, h2, GoMap.set]
    · by_cases h3 : nw.Driver = "macvlan"
      · simp [h1, h2, h3, GoMap.set]
      · simp [h1, h2, h3]

/-- On a first call the accessor returns what the construction returned, with
    the error wrapped; on every later call it returns the stored client and a
    nil error. -/
theorem dockerCalls_fresh (env : Env) (n : Nat) (st : State) (hfresh : st.onceDone = false) :
    (dockerCalls env (n + 1) st).1
      = (env.newClient.1, errorsWrap env.newClient.2 "environment/docker: could not create client")
        :: List.replicate n (env.newClient.1, none) := by
  have hdone : ∀ (m : Nat) (s : State), s.onceDone = true →
      (dockerCalls env m s).1 = List.replicate m (s.client, none) := by
    intro m
    induction m with
    | zero => intro s _; rfl
    | succ k ih =>
      intro s hs
      have hD : Docker env s = ((s.client, none), s) := by
        simp [Docker, hs, errorsWrap]
      simp only [dockerCalls, hD, List.replicate_succ]
      rw [ih s hs]
  have hD : Docker env st
      = ((env.newClient.1,
          errorsWrap env.newClient.2 "environment/docker: could not create client"),
         { st with onceDone := true, client := env.newClient.1 }) := by
    simp [Docker, hfresh]
  simp only [dockerCalls, hD]
  rw [hdone n _ rfl]

/-- When the inspect request finds the network, `ConfigureDocker` returns
    success and persists the driver the runtime reported. -/
theorem ConfigureDocker_found_driver (env : Env) (st : State) (h : Handle)
    (r : NetworkResource)
    (hcli : (Docker env st).1 = (some h, none))
    (hins : env.inspect st.config.Docker.Network.Name = InspectResponse.found r) :
    (ConfigureDocker env st).1 = Outcome.returned none ∧
    (ConfigureDocker env st).2.config.Docker.Network.Driver = r.Driver := by
  have hcfg := Docker_config env st
  unfold ConfigureDocker
  generalize Docker env st = d at hcli hcfg ⊢
  obtain ⟨⟨c, er⟩, st1⟩ := d
  simp only [Prod.mk.injEq] at hcli
  obtain ⟨rfl, rfl⟩ := hcli
  simp only at hcfg
  simp only [NetworkInspect, hcfg, hins, applyObservedDriver]
  refine ⟨trivial, ?_⟩
  split
  · rfl
  · split <;> rfl

/-- C1: the request `createDockerNetwork` sends to the runtime carries exactly
    the reference option mapping: the seven bridge options for driver
    `bridge` (inter-container communication rendered as "true" or "false"),
    encryption "true" and MTU "9216" for `overlay`, the parent interface for
    `macvlan`, and the empty map for every other driver. -/
theorem createDockerNetwork_submits_reference_options (env : Env) (st : State) :
    ∃ req : NetworkCreate,
      (createDockerNetwork env st).2.calls
        = st.calls ++ [ApiCall.networkCreate st.config.Docker.Network.Name req] ∧
      req.Options = referenceOptions st.config.Docker.Network.Driver
        st.config.Docker.Network.EnableICC st.config.Docker.Network.Interface := by
  refine ⟨createRequest st.config.Docker.Network st.config, ?_, ?_⟩
  · unfold createDockerNetwork
    cases hc : NetworkCreateCall env st.config.Docker.Network.Name
        (createRequest st.config.Docker.Network st.config) with
    | none => simp only [hc]; split <;> rfl
    | some err => simp only [hc]
  · exact networkOptions_eq_reference st.config.Docker.Network st.config

/-- C2: when the desired driver is `overlay`, the network is absent and the
    create request succeeds, `ConfigureDocker` returns success, yet the
    persisted multi-host flag is false, the interface keeps its previous value
    and the persisted driver is the empty driver of the zero network resource
    left by the failed inspect. -/
theorem ConfigureDocker_overlay_created_not_multihost (env : Env) (st : State) (h : Handle)
    (e : GoErr)
    (hcli : (Docker env st).1 = (some h, none))
    (hins : env.inspect st.config.Docker.Network.Name = InspectResponse.failed e)
    (hnf : IsErrNotFound e = true)
    (hcreate : env.create st.config.Docker.Network.Name
        (createRequest st.config.Docker.Network st.config) = none)
    (hdrv : st.config.Docker.Network.Driver = "overlay") :
    (ConfigureDocker env st).1 = Outcome.returned none ∧
    (ConfigureDocker env st).2.config.Docker.Network.ISPN = false ∧
    (ConfigureDocker env st).2.config.Docker.Network.Interface
      = st.config.Docker.Network.Interface ∧
    (ConfigureDocker env st).2.config.Docker.Network.Driver = "" := by
  have hcfg := Docker_config env st
  unfold ConfigureDocker
  generalize Docker env st = r at hcli hcfg ⊢
  obtain ⟨⟨c, er⟩, st1⟩ := r
  simp only [Prod.mk.injEq] at hcli
  obtain ⟨rfl, rfl⟩ := hcli
  simp only at hcfg
  simp [NetworkInspect, hcfg, hins, hnf, createDockerNetwork, NetworkCreateCall, hcreate,
    applyObservedDriver, NetworkResource.zero, hdrv]

/-- The run of C2 on a fresh process whose configuration asks for `overlay`
    and whose previous interface is "172.18.0.1". -/
theorem ConfigureDocker_overlay_created_not_multihost_witness :
    (ConfigureDocker (absentEnv none) (freshState (sampleConfig "overlay" "172.18.0.1"))).1
      = Outcome.returned none ∧
    (ConfigureDocker (absentEnv none)
      (freshState (sampleConfig "overlay" "172.18.0.1"))).2.config.Docker.Network.ISPN = false ∧
    (ConfigureDocker (absentEnv none)
      (freshState (sampleConfig "overlay" "172.18.0.1"))).2.config.Docker.Network.Interface
      = "172.18.0.1" ∧
    (ConfigureDocker (absentEnv none)
      (freshState (sampleConfig "overlay" "172.18.0.1"))).2.config.Docker.Network.Driver = "" :=
  ConfigureDocker_overlay_created_not_multihost (absentEnv none)
    (freshState (sampleConfig "overlay" "172.18.0.1")) 1
    { msg := "network not found", notFound := true } rfl rfl rfl rfl rfl

/-- C3: when the network is absent and freshly created, `ConfigureDocker`
    returns success and the persisted driver is the empty string, the driver of
    the zero network resource left by the failed inspect, whatever driver was
    requested. -/
theorem ConfigureDocker_created_driver_empty (env : Env) (st : State) (h : Handle)
    (e : GoErr)
    (hcli : (Docker env st).1 = (some h, none))
    (hins : env.inspect st.config.Docker.Network.Name = InspectResponse.failed e)
    (hnf : IsErrNotFound e = true)
    (hcreate : env.create st.config.Docker.Network.Name
        (createRequest st.config.Docker.Network st.config) = none) :
    (ConfigureDocker env st).1 = Outcome.returned none ∧
    (ConfigureDocker env st).2.config.Docker.Network.Driver = "" := by
  have hcfg := Docker_config env st
  unfold ConfigureDocker
  generalize Docker env st = r at hcli hcfg ⊢
  obtain ⟨⟨c, er⟩, st1⟩ := r
  simp only [Prod.mk.injEq] at hcli
  obtain ⟨rfl, rfl⟩ := hcli
  simp only at hcfg
  by_cases hl : st.config.Docker.Network.Driver ≠ "host"
      ∧ st.config.Docker.Network.Driver ≠ "overlay"
      ∧ st.config.Docker.Network.Driver ≠ "weavemesh"
      ∧ st.config.Docker.Network.Driver ≠ "macvlan"
  · simp [NetworkInspect, hcfg, hins, hnf, createDockerNetwork, NetworkCreateCall, hcreate,
      applyObservedDriver, NetworkResource.zero, setInterfaceToGateway, hl]
  · simp only [NetworkInspect, hcfg, hins, hnf, createDockerNetwork, NetworkCreateCall, hcreate,
      if_true, if_neg hl]
    simp [applyObservedDriver, NetworkResource.zero]

/-- The run of C3 on a fresh process whose configuration asks for `bridge`:
    the persisted driver is empty and differs from the requested one. -/
theorem ConfigureDocker_created_driver_empty_witness :
    (sampleConfig "bridge" "172.18.0.1").Docker.Network.Driver = "bridge" ∧
    (ConfigureDocker (absentEnv none) (freshState (sampleConfig "bridge" "172.18.0.1"))).1
      = Outcome.returned none ∧
    (ConfigureDocker (absentEnv none)
      (freshState (sampleConfig "bridge" "172.18.0.1"))).2.config.Docker.Network.Driver = "" :=
  ⟨rfl, ConfigureDocker_created_driver_empty (absentEnv none)
    (freshState (sampleConfig "bridge" "172.18.0.1")) 1
    { msg := "network not found", notFound := true } rfl rfl rfl rfl⟩

/-- C4: when the desired driver is none of `host`, `overlay`, `weavemesh`,
    `macvlan`, the network is absent and the create request succeeds,
    `ConfigureDocker` returns success, the persisted interface is the declared
    IPv4 gateway of the configuration, whatever the interface was before, and
    the multi-host flag is false. -/
theorem ConfigureDocker_local_created (env : Env) (st : State) (h : Handle) (e : GoErr)
    (hcli : (Docker env st).1 = (some h, none))
    (hins : env.inspect st.config.Docker.Network.Name = InspectResponse.failed e)
    (hnf : IsErrNotFound e = true)
    (hcreate : env.create st.config.Docker.Network.Name
        (createRequest st.config.Docker.Network st.config) = none)
    (hhost : st.config.Docker.Network.Driver ≠ "host")
    (hoverlay : st.config.Docker.Network.Driver ≠ "overlay")
    (hweave : st.config.Docker.Network.Driver ≠ "weavemesh")
    (hmacvlan : st.config.Docker.Network.Driver ≠ "macvlan") :
    (ConfigureDocker env st).1 = Outcome.returned none ∧
    (ConfigureDocker env st).2.config.Docker.Network.Interface
      = st.config.Docker.Network.Interfaces.V4.Gateway ∧
    (ConfigureDocker env st).2.config.Docker.Network.ISPN = false := by
  have hcfg := Docker_config env st
  unfold ConfigureDocker
  generalize Docker env st = r at hcli hcfg ⊢
  obtain ⟨⟨c, er⟩, st1⟩ := r
  simp only [Prod.mk.injEq] at hcli
  obtain ⟨rfl, rfl⟩ := hcli
  simp only at hcfg
  simp [NetworkInspect, hcfg, hins, hnf, createDockerNetwork, NetworkCreateCall, hcreate,
    applyObservedDriver, NetworkResource.zero, setInterfaceToGateway, hhost, hoverlay, hweave,
    hmacvlan]

/-- The run of C4 for driver `bridge` with declared gateway "172.20.0.1" and
    previous interface "10.0.0.1". -/
theorem ConfigureDocker_local_created_witness :
    (ConfigureDocker (absentEnv none) (freshState (sampleConfig "bridge" "10.0.0.1"))).1
      = Outcome.returned none ∧
    (ConfigureDocker (absentEnv none)
      (freshState (sampleConfig "bridge" "10.0.0.1"))).2.config.Docker.Network.Interface
      = "172.20.0.1" ∧
    (ConfigureDocker (absentEnv none)
      (freshState (sampleConfig "bridge" "10.0.0.1"))).2.config.Docker.Network.ISPN = false :=
  ConfigureDocker_local_created (absentEnv none) (freshState (sampleConfig "bridge" "10.0.0.1"))
    1 { msg := "network not found", notFound := true } rfl rfl rfl rfl
    (by decide) (by decide) (by decide) (by decide)

/-- C5: when the inspect request finds the network and reports driver `host`,
    `ConfigureDocker` returns success, the only request sent to the runtime is
    the inspect request (no create request), and the persisted driver is
    `host`, the interface "127.0.0.1" and the multi-host flag false, whatever
    they were before. -/
theorem ConfigureDocker_found_host (env : Env) (st : State) (h : Handle)
    (r : NetworkResource)
    (hcli : (Docker env st).1 = (some h, none))
    (hins : env.inspect st.config.Docker.Network.Name = InspectResponse.found r)
    (hdrv : r.Driver = "host") :
    (ConfigureDocker env st).1 = Outcome.returned none ∧
    (ConfigureDocker env st).2.calls
      = st.calls ++ [ApiCall.networkInspect st.config.Docker.Network.Name] ∧
    (ConfigureDocker env st).2.calls.filter ApiCall.isCreate
      = st.calls.filter ApiCall.isCreate ∧
    (ConfigureDocker env st).2.config.Docker.Network.Driver = "host" ∧
    (ConfigureDocker env st).2.config.Docker.Network.Interface = "127.0.0.1" ∧
    (ConfigureDocker env st).2.config.Docker.Network.ISPN = false := by
  have hcfg := Docker_config env st
  have hcalls := Docker_calls env st
  unfold ConfigureDocker
  generalize Docker env st = d at hcli hcfg hcalls ⊢
  obtain ⟨⟨c, er⟩, st1⟩ := d
  simp only [Prod.mk.injEq] at hcli
  obtain ⟨rfl, rfl⟩ := hcli
  simp only at hcfg hcalls
  simp [NetworkInspect, hcfg, hcalls, hins, applyObservedDriver, hdrv, ApiCall.isCreate]

/-- The run of C5 on a process whose configuration held driver `bridge`,
    interface "172.18.0.1" while the runtime reports `host`. -/
theorem ConfigureDocker_found_host_witness :
    (ConfigureDocker (inspectEnv (InspectResponse.found { Name := "pterodactyl_nw", Driver := "host" }))
      (freshState (sampleConfig "bridge" "172.18.0.1"))).2.calls
      = [ApiCall.networkInspect "pterodactyl_nw"] ∧
    (ConfigureDocker (inspectEnv (InspectResponse.found { Name := "pterodactyl_nw", Driver := "host" }))
      (freshState (sampleConfig "bridge" "172.18.0.1"))).2.config.Docker.Network.Interface
      = "127.0.0.1" :=
  have hrun := ConfigureDocker_found_host
    (inspectEnv (InspectResponse.found { Name := "pterodactyl_nw", Driver := "host" }))
    (freshState (sampleConfig "bridge" "172.18.0.1")) 1
    { Name := "pterodactyl_nw", Driver := "host" } rfl rfl rfl
  ⟨hrun.2.1, hrun.2.2.2.2.1⟩

/-- C6: when the inspect request fails with an error outside the not-found
    class, `ConfigureDocker` returns that very error, the only request sent to
    the runtime is the inspect request (no create request), and the
    configuration is left as it was. -/
theorem ConfigureDocker_inspect_error (env : Env) (st : State) (h : Handle) (e : GoErr)
    (hcli : (Docker env st).1 = (some h, none))
    (hins : env.inspect st.config.Docker.Network.Name = InspectResponse.failed e)
    (hnf : IsErrNotFound e = false) :
    (ConfigureDocker env st).1 = Outcome.returned (some e) ∧
    (ConfigureDocker env st).2.calls
      = st.calls ++ [ApiCall.networkInspect st.config.Docker.Network.Name] ∧
    (ConfigureDocker env st).2.calls.filter ApiCall.isCreate
      = st.calls.filter ApiCall.isCreate ∧
    (ConfigureDocker env st).2.config = st.config := by
  have hcfg := Docker_config env st
  have hcalls := Docker_calls env st
  unfold ConfigureDocker
  generalize Docker env st = d at hcli hcfg hcalls ⊢
  obtain ⟨⟨c, er⟩, st1⟩ := d
  simp only [Prod.mk.injEq] at hcli
  obtain ⟨rfl, rfl⟩ := hcli
  simp only at hcfg hcalls
  simp [NetworkInspect, hcfg, hcalls, hins, hnf, ApiCall.isCreate]

/-- The run of C6 when the runtime denies the inspect request. -/
theorem ConfigureDocker_inspect_error_witness :
    (ConfigureDocker
      (inspectEnv (InspectResponse.failed { msg := "permission denied", notFound := false }))
      (freshState (sampleConfig "bridge" "172.18.0.1"))).1
      = Outcome.returned (some { msg := "permission denied", notFound := false }) ∧
    (ConfigureDocker
      (inspectEnv (InspectResponse.failed { msg := "permission denied", notFound := false }))
      (freshState (sampleConfig "bridge" "172.18.0.1"))).2.calls
      = [ApiCall.networkInspect "pterodactyl_nw"] :=
  have hrun := ConfigureDocker_inspect_error
    (inspectEnv (InspectResponse.failed { msg := "permission denied", notFound := false }))
    (freshState (sampleConfig "bridge" "172.18.0.1")) 1
    { msg := "permission denied", notFound := false } rfl rfl rfl
  ⟨hrun.1, hrun.2.1⟩

/-- The function `stringsContains` decides whether the second string occurs
    inside the first. -/
theorem stringsContains_iff (s substr : String) :
    stringsContains s substr = true ↔ substr.data <:+: s.data := by
  unfold stringsContains
  rw [List.any_eq_true, List.infix_iff_prefix_suffix]
  constructor
  · rintro ⟨t, ht, hp⟩
    exact ⟨t, List.isPrefixOf_iff_prefix.mp hp, (List.mem_tails _ _).mp ht⟩
  · rintro ⟨t, hp, ht⟩
    exact ⟨t, (List.mem_tails _ _).mpr ht, List.isPrefixOf_iff_prefix.mpr hp⟩

/-- The error entry of `createDockerNetwork` contains the network name and the
    driver it was formatted from. -/
theorem createErrorMessage_containsBoth (name driver : String) :
    LogEntry.containsBoth { level := Level.error, message := createErrorMessage name driver }
      name driver = true := by
  unfold LogEntry.containsBoth
  rw [Bool.and_eq_true, stringsContains_iff, stringsContains_iff]
  constructor
  · refine ⟨"Error creating network ".data, (" driver:" ++ driver).data, ?_⟩
    simp [createErrorMessage, String.data_append]
  · refine ⟨("Error creating network " ++ name ++ " driver:").data, [], ?_⟩
    simp [createErrorMessage, String.data_append]

/-- C7, as stated, fails for a network named "pterodactyl0" with an empty
    driver: the create error is returned, but two of the entries logged during
    the run contain both the name and the driver, the fixed informational entry
    being one of them. -/
theorem ConfigureDocker_create_error_two_records_counterexample :
    (ConfigureDocker (absentEnv (some { msg := "pool overlaps", notFound := false }))
      (freshState (sampleConfigNamed "pterodactyl0" "" "172.18.0.1"))).1
      = Outcome.returned (some { msg := "pool overlaps", notFound := false }) ∧
    ((ConfigureDocker (absentEnv (some { msg := "pool overlaps", notFound := false }))
      (freshState (sampleConfigNamed "pterodactyl0" "" "172.18.0.1"))).2.logs.filter
      (fun entry => entry.containsBoth "pterodactyl0" "")).length = 2 := by
  decide

/-- C7, amended: when the network is absent and the create request fails,
    `ConfigureDocker` returns the create error; the entries logged during the
    run are the fixed informational entry followed by one error entry, the only
    one at error level, whose message is built from the network name and the
    driver and contains both. The entries of the run that contain both are
    that error entry alone, or two when the fixed informational text happens
    to contain the name and the driver as well. -/
theorem ConfigureDocker_create_error_logged (env : Env) (st : State) (h : Handle)
    (e e2 : GoErr)
    (hcli : (Docker env st).1 = (some h, none))
    (hins : env.inspect st.config.Docker.Network.Name = InspectResponse.failed e)
    (hnf : IsErrNotFound e = true)
    (hcreate : env.create st.config.Docker.Network.Name
        (createRequest st.config.Docker.Network st.config) = some e2) :
    (ConfigureDocker env st).1 = Outcome.returned (some e2) ∧
    (ConfigureDocker env st).2.logs
      = st.logs ++
        [creatingEntry,
         { level := Level.error,
           message := createErrorMessage st.config.Docker.Network.Name
             st.config.Docker.Network.Driver }] ∧
    (((ConfigureDocker env st).2.logs.drop st.logs.length).filter
      (fun entry => decide (entry.level = Level.error))).length = 1 ∧
    st.config.Docker.Network.Name.data <:+:
      (createErrorMessage st.config.Docker.Network.Name st.config.Docker.Network.Driver).data ∧
    st.config.Docker.Network.Driver.data <:+:
      (createErrorMessage st.config.Docker.Network.Name st.config.Docker.Network.Driver).data ∧
    (((ConfigureDocker env st).2.logs.drop st.logs.length).filter
      (fun entry => entry.containsBoth st.config.Docker.Network.Name
        st.config.Docker.Network.Driver)).length
      = (if creatingEntry.containsBoth st.config.Docker.Network.Name
            st.config.Docker.Network.Driver = true then 2 else 1) := by
  have hcfg := Docker_config env st
  have hlogs := Docker_logs env st
  have hboth := createErrorMessage_containsBoth st.config.Docker.Network.Name
    st.config.Docker.Network.Driver
  have hboth2 := hboth
  unfold LogEntry.containsBoth at hboth2
  rw [Bool.and_eq_true, stringsContains_iff, stringsContains_iff] at hboth2
  unfold ConfigureDocker
  generalize Docker env st = d at hcli hcfg hlogs ⊢
  obtain ⟨⟨c, er⟩, st1⟩ := d
  simp only [Prod.mk.injEq] at hcli
  obtain ⟨rfl, rfl⟩ := hcli
  simp only at hcfg hlogs
  refine ⟨?_, ?_, ?_, hboth2.1, hboth2.2, ?_⟩
  · simp [NetworkInspect, hcfg, hins, hnf, createDockerNetwork, NetworkCreateCall, hcreate]
  · simp [NetworkInspect, hcfg, hlogs, hins, hnf, createDockerNetwork, NetworkCreateCall,
      hcreate, creatingEntry]
  · simp [NetworkInspect, hcfg, hlogs, hins, hnf, createDockerNetwork, NetworkCreateCall,
      hcreate]
  · simp only [NetworkInspect, hcfg, hlogs, hins, hnf, createDockerNetwork, NetworkCreateCall,
      hcreate, if_true, List.append_assoc, List.drop_left, List.singleton_append]
    by_cases hinfo : creatingEntry.containsBoth st.config.Docker.Network.Name
        st.config.Docker.Network.Driver = true
    · have hinfo2 := hinfo
      unfold creatingEntry at hinfo2
      simp [List.filter, hinfo, hinfo2, hboth]
    · have hinfo2 := hinfo
      unfold creatingEntry at hinfo2
      simp [List.filter, hinfo, hinfo2, hboth]

/-- The run of C7 when the runtime rejects the create request for the
    `bridge` network "pterodactyl_nw": one error entry, and one entry
    containing name and driver. -/
theorem ConfigureDocker_create_error_logged_witness :
    (ConfigureDocker (absentEnv (some { msg := "pool overlaps", notFound := false }))
      (freshState (sampleConfig "bridge" "172.18.0.1"))).1
      = Outcome.returned (some { msg := "pool overlaps", notFound := false }) ∧
    (ConfigureDocker (absentEnv (some { msg := "pool overlaps", notFound := false }))
      (freshState (sampleConfig "bridge" "172.18.0.1"))).2.logs
      = [{ level := Level.info,
           message := "creating missing pterodactyl0 interface, this could take a few seconds..." },
         { level := Level.error,
           message := "Error creating network pterodactyl_nw driver:bridge" }] :=
  have hrun := ConfigureDocker_create_error_logged
    (absentEnv (some { msg := "pool overlaps", notFound := false }))
    (freshState (sampleConfig "bridge" "172.18.0.1")) 1
    { msg := "network not found", notFound := true }
    { msg := "pool overlaps", notFound := false } rfl rfl rfl rfl
  ⟨hrun.1, hrun.2.1⟩

/-- C8: when the construction of the client fails, the first call of `Docker`
    returns the wrapped construction error, and each of the calls after it
    returns the stored client pointer with a nil error: the failure is
    reported on the first call only. -/
theorem Docker_failure_reported_once (env : Env) (st : State) (e : GoErr) (n : Nat)
    (hfresh : st.onceDone = false)
    (hfail : env.newClient.2 = some e) :
    (dockerCalls env (n + 1) st).1
      = (env.newClient.1,
          some { e with msg := "environment/docker: could not create client: " ++ e.msg })
        :: List.replicate n (env.newClient.1, none) := by
  rw [dockerCalls_fresh env n st hfresh, hfail]
  rfl

/-- Three calls of `Docker` in a process where the construction fails with
    "cannot connect": an error, then twice no error and no client. -/
theorem Docker_failure_reported_once_witness :
    (dockerCalls
      { newClient := (none, some { msg := "cannot connect", notFound := false })
        inspect := fun _ => InspectResponse.failed { msg := "unused", notFound := false }
        create := fun _ _ => none }
      3 (freshState (sampleConfig "bridge" "172.18.0.1"))).1
      = [(none, some { msg := "environment/docker: could not create client: cannot connect",
                       notFound := false }),
         (none, none), (none, none)] :=
  Docker_failure_reported_once
    { newClient := (none, some { msg := "cannot connect", notFound := false })
      inspect := fun _ => InspectResponse.failed { msg := "unused", notFound := false }
      create := fun _ _ => none }
    (freshState (sampleConfig "bridge" "172.18.0.1"))
    { msg := "cannot connect", notFound := false } 2 rfl rfl

end environment

/-! # Theorems about middleware.go -/

namespace middleware

/-- Reading a header right after setting it gives the value set. -/
theorem headerGet_headerSet_same (h : HttpHeader) (k v : String) :
    headerGet (headerSet h k v) k = v := by
  induction h with
  | nil => simp [headerSet, headerGet]
  | cons kv rest ih =>
    obtain ⟨k0, v0⟩ := kv
    by_cases hk : k0 = k
    · simp [headerSet, headerGet, hk]
    · simp [headerSet, headerGet, hk, ih]

/-- Setting one header leaves the others as they were. -/
theorem headerGet_headerSet_other (h : HttpHeader) (k v key : String) (hne : k ≠ key) :
    headerGet (headerSet h k v) key = headerGet h key := by
  induction h with
  | nil => simp [headerSet, headerGet, hne]
  | cons kv rest ih =>
    obtain ⟨k0, v0⟩ := kv
    by_cases hk : k0 = k
    · subst hk
      simp [headerSet, headerGet, hne]
    · simp [headerSet, headerGet, hk, ih]

/-- Reading a removed header gives the empty string. -/
theorem headerGet_headerDel_same (h : HttpHeader) (k : String) :
    headerGet (headerDel h k) k = "" := by
  induction h with
  | nil => simp [headerDel, headerGet]
  | cons kv rest ih =>
    obtain ⟨k0, v0⟩ := kv
    simp only [headerDel] at ih ⊢
    by_cases hk : k0 = k
    · simpa [List.filter, hk] using ih
    · simpa [List.filter, headerGet, hk] using ih

/-- Removing one header leaves the others as they were. -/
theorem headerGet_headerDel_other (h : HttpHeader) (k key : String) (hne : k ≠ key) :
    headerGet (headerDel h k) key = headerGet h key := by
  induction h with
  | nil => simp [headerDel, headerGet]
  | cons kv rest ih =>
    obtain ⟨k0, v0⟩ := kv
    simp only [headerDel] at ih ⊢
    by_cases hk : k0 = k
    · subst hk
      simpa [List.filter, headerGet, hne] using ih
    · by_cases hkey : k0 = key
      · subst hkey
        simp [List.filter, headerGet, hk]
      · simpa [List.filter, headerGet, hk, hkey] using ih

/-- After `c.Header("Access-Control-Allow-Origin", v)` the header reads `v`. -/
theorem allowOriginOf_Header_same (c : Context) (v : String) :
    allowOriginOf (c.Header "Access-Control-Allow-Origin" v) = v := by
  unfold allowOriginOf Context.Header
  by_cases hv : v = ""
  · simp [hv, headerGet_headerDel_same]
  · simp [hv, headerGet_headerSet_same]

/-- Writing another header does not change the allowed origin. -/
theorem allowOriginOf_Header_other (c : Context) (k v : String)
    (hne : k ≠ "Access-Control-Allow-Origin") :
    allowOriginOf (c.Header k v) = allowOriginOf c := by
  unfold allowOriginOf Context.Header
  by_cases hv : v = ""
  · simp [hv, headerGet_headerDel_other _ _ _ hne]
  · simp [hv, headerGet_headerSet_other _ _ _ _ hne]

/-- Writing a response header leaves the request as it was. -/
theorem Request_Header (c : Context) (k v : String) : (c.Header k v).Request = c.Request := by
  unfold Context.Header
  split <;> rfl

/-- The loop leaves the request as it was. -/
theorem Request_allowOriginLoop (origin : String) (origins : List String) (c : Context) :
    (allowOriginLoop origin origins c).Request = c.Request := by
  induction origins with
  | nil => rfl
  | cons o rest ih =>
    unfold allowOriginLoop
    split
    · exact ih
    · exact Request_Header c _ o

/-- The loop writes the first allowed origin that is the wildcard or the
    request origin, and writes nothing when there is none. -/
theorem allowOriginOf_allowOriginLoop (origin : String) (origins : List String) (c : Context) :
    allowOriginOf (allowOriginLoop origin origins c)
      = (origins.find? (fun o => decide (o = "*" ∨ o = origin))).getD (allowOriginOf c) := by
  induction origins with
  | nil => rfl
  | cons o rest ih =>
    unfold allowOriginLoop
    by_cases ho : o ≠ "*" ∧ o ≠ origin
    · have hno : ¬ (o = "*" ∨ o = origin) := by
        rintro (h1 | h1)
        · exact ho.1 h1
        · exact ho.2 h1
      rw [if_pos ho, ih, List.find?_cons_of_neg]
      simpa using hno
    · have hyes : o = "*" ∨ o = origin := by
        by_contra hcon
        exact ho ⟨fun h1 => hcon (Or.inl h1), fun h1 => hcon (Or.inr h1)⟩
      rw [if_neg ho, allowOriginOf_Header_same, List.find?_cons_of_pos]
      · rfl
      · simpa using hyes

/-- The allowed origin the handler leaves in the response: the panel location
    when the request origin is the panel location, and otherwise the first
    allowed origin that is the wildcard or the request origin, with the panel
    location as the fallback. -/
theorem allowOriginOf_SetAccessControlHeaders (origins : List String) (location : String)
    (c : Context) :
    allowOriginOf (SetAccessControlHeaders origins location c)
      = if c.GetHeader "Origin" = location then location
        else (origins.find? (fun o => decide (o = "*" ∨ o = c.GetHeader "Origin"))).getD
          location := by
  have hmethod : ∀ d : Context,
      allowOriginOf (if d.Request.Method = "OPTIONS" then d.AbortWithStatus 204 else d.Next)
        = allowOriginOf d := by
    intro d
    split
    · unfold allowOriginOf Context.AbortWithStatus ResponseWriter.WriteHeaderNow
        ResponseWriter.WriteHeader
      split
      · split <;> rfl
      · rfl
    · rfl
  unfold SetAccessControlHeaders
  simp only [hmethod, Context.GetHeader, Request_Header]
  by_cases ho : headerGet c.Request.Header "Origin" = location
  · simp only [ho, ne_eq, not_true_eq_false, if_false, if_true]
    rw [allowOriginOf_Header_other _ _ _ (by decide), allowOriginOf_Header_same]
  · simp only [ho, ne_eq, not_false_eq_true, if_true, if_false]
    rw [allowOriginOf_allowOriginLoop, allowOriginOf_Header_other _ _ _ (by decide),
      allowOriginOf_Header_same]

/-- C9: when the allowed origins start with the wildcard "*" and the request
    origin is not the panel location, the final `Access-Control-Allow-Origin`
    header is "*", whether or not the request origin is itself listed after
    the wildcard; the loop stops at the wildcard and never returns the listed
    origin explicitly. -/
theorem SetAccessControlHeaders_wildcard_first (rest : List String) (location : String)
    (c : Context) (hne : c.GetHeader "Origin" ≠ location) :
    allowOriginOf (SetAccessControlHeaders ("*" :: rest) location c) = "*" := by
  rw [allowOriginOf_SetAccessControlHeaders, if_neg hne, List.find?_cons_of_pos]
  · rfl
  · simp

/-- The handler run with allowed origins "*" and "https://other.example.com"
    for a request from "https://other.example.com": the origin is allowed, yet
    the header is "*" and not that origin. -/
theorem SetAccessControlHeaders_wildcard_first_witness :
    "https://other.example.com" ∈ ["*", "https://other.example.com"] ∧
    allowOriginOf (SetAccessControlHeaders ["*", "https://other.example.com"]
      "https://panel.example.com" (sampleContext "GET" "https://other.example.com")) = "*" ∧
    "*" ≠ "https://other.example.com" :=
  ⟨by decide,
   SetAccessControlHeaders_wildcard_first ["https://other.example.com"]
     "https://panel.example.com" (sampleContext "GET" "https://other.example.com")
     (by decide),
   by decide⟩

/-- When no allowed origin is the wildcard "*", the final
    `Access-Control-Allow-Origin` header is the request origin if that origin
    is one of the allowed origins, and the panel location otherwise. -/
theorem SetAccessControlHeaders_allow_origin (origins : List String) (location : String)
    (c : Context) (hwild : "*" ∉ origins) :
    allowOriginOf (SetAccessControlHeaders origins location c)
      = if c.GetHeader "Origin" ∈ origins then c.GetHeader "Origin" else location := by
  rw [allowOriginOf_SetAccessControlHeaders]
  have hfind : ∀ l : List String, "*" ∉ l →
      (l.find? (fun o => decide (o = "*" ∨ o = c.GetHeader "Origin"))).getD location
        = if c.GetHeader "Origin" ∈ l then c.GetHeader "Origin" else location := by
    intro l
    induction l with
    | nil => intro _; rfl
    | cons o rest ih =>
      intro hw
      have hw1 : o ≠ "*" := fun h1 => hw (by simp [h1])
      have hw2 : "*" ∉ rest := fun h1 => hw (List.mem_cons_of_mem _ h1)
      by_cases ho : o = c.GetHeader "Origin"
      · rw [List.find?_cons_of_pos _ (by simpa using Or.inr ho)]
        simp [ho]
      · rw [List.find?_cons_of_neg _ (by simpa using ⟨hw1, ho⟩), ih hw2]
        have hne : ¬ c.GetHeader "Origin" = o := fun h1 => ho h1.symm
        simp [List.mem_cons, hne]
  by_cases hloc : c.GetHeader "Origin" = location
  · simp only [hloc, if_true]
    split <;> rfl
  · simp only [hloc, if_false]
    exact hfind origins hwild

/-- The handler run for a listed origin and for an unlisted one, with the
    allowed origins "https://a.example.com" and "https://b.example.com". -/
theorem SetAccessControlHeaders_allow_origin_witness :
    allowOriginOf (SetAccessControlHeaders ["https://a.example.com", "https://b.example.com"]
      "https://panel.example.com" (sampleContext "GET" "https://b.example.com"))
      = "https://b.example.com" :=
  SetAccessControlHeaders_allow_origin ["https://a.example.com", "https://b.example.com"]
    "https://panel.example.com" (sampleContext "GET" "https://b.example.com") (by decide)

/-- C10: for an error that is or wraps `context.DeadlineExceeded`, with the
    writer still holding 200, `Abort` sets the status of the error to 504 but
    sends the response with the status passed as argument (when it is positive
    and the headers did not go out yet), so the response carries 504 only when
    the caller passed 504. -/
theorem Abort_deadline_response_status (re : RequestError) (c : Context) (status : Int)
    (hdl : isDeadlineExceeded re.err = true)
    (h200 : c.Writer.status = 200) :
    ∃ re1 c1 event, re.Abort c status = some (re1, c1, event) ∧
      re1.status = 504 ∧
      c1.Writer.status = (if status > 0 ∧ c.Writer.written = false then status else 200) ∧
      (status ≠ 504 → c1.Writer.status ≠ 504) := by
  have hwrite : (c.Writer.WriteHeader status).status
      = (if status > 0 ∧ c.Writer.written = false then status else 200) := by
    unfold ResponseWriter.WriteHeader
    by_cases hpos : status > 0 <;> by_cases hw : c.Writer.written = true <;>
      by_cases h2 : status = 200 <;> simp [hpos, hw, h2, h200]
    rw [if_neg (fun h3 => h2 h3.symm)]
  have hstatus : ∀ obj : List (String × String),
      (c.AbortWithStatusJSON status obj).Writer.status
        = (if status > 0 ∧ c.Writer.written = false then status else 200) := by
    intro obj
    rw [← hwrite]
    unfold Context.AbortWithStatusJSON ResponseWriter.WriteHeaderNow
    simp only
    split <;> split <;> rfl
  unfold RequestError.Abort
  simp only [adjustForContextErrors, h200, hdl, if_true]
  refine ⟨_, _, _, rfl, ?_, hstatus _, ?_⟩
  · simp [RequestError.SetStatus, RequestError.SetMessage]
  · intro hne
    rw [hstatus]
    split
    · exact hne
    · decide

/-- The run of C10 as `CaptureErrors` starts it: a wrapped deadline error,
    nothing written yet, status argument 500: the response goes out with 500
    while the error holds 504. -/
theorem Abort_deadline_response_status_witness :
    ∃ re1 c1 event,
      (NewError (some (GoError.wrap "fetching server" GoError.deadlineExceeded))).Abort
        (sampleContext "GET" "https://panel.example.com") 500 = some (re1, c1, event) ∧
      re1.status = 504 ∧
      c1.Writer.status = (if (500 : Int) > 0 ∧
        (sampleContext "GET" "https://panel.example.com").Writer.written = false
        then 500 else 200) ∧
      ((500 : Int) ≠ 504 → c1.Writer.status ≠ 504) :=
  Abort_deadline_response_status
    (NewError (some (GoError.wrap "fetching server" GoError.deadlineExceeded)))
    (sampleContext "GET" "https://panel.example.com") 500 rfl rfl

end middleware
